import Mathlib

/-!
Verification of the SRAM/TCM power-state FSM of the ZynqMP PMU firmware
(`lib/sw_apps/zynqmp_pmufw/src/pm_sram.c`).

The source file defines, per memory bank class, a state/capability table,
a transition table, the FSM transition handler `PmSramFsmHandler`, the
bank instance records, and the L2-specific power-down wrapper `PmL2PwrDn`.
The generic dispatcher that consults the transition table, and the
aggregator that short-circuits same-state requests, live in other files of
the firmware (`pm_slave.c`) and are modelled here from the design
specification where a claim depends on them.

Hardware-facing effects (register read-modify-writes and the external
power actions) are recorded as an explicit trace of events; the return
statuses of the external power actions are supplied by an environment
record, since those actions are external collaborators.
-/

namespace PmSram

/-! ### Numeric constants

Status codes come from `xstatus.h` / `pm_defs.h` (not part of the analyzed
fragment); only their distinctness matters below, but the customary values
are used. -/

def XST_SUCCESS : Int := 0

def XST_NO_FEATURE : Int := 19

def XST_PM_INTERNAL : Int := 2000

/-- Capability bits, from `pm_defs.h`: accessible. -/
def PM_CAP_ACCESS : Nat := 1

/-- Capability bits, from `pm_defs.h`: context retained. -/
def PM_CAP_CONTEXT : Nat := 2

/-- Capability bits, from `pm_defs.h`: powered. -/
def PM_CAP_POWER : Nat := 8

/-! Power states of SRAM, as in the source. -/

def PM_SRAM_STATE_OFF : Nat := 0

def PM_SRAM_STATE_RET : Nat := 1

def PM_SRAM_STATE_ON : Nat := 2

def PM_SRAM_STATE_MAX : Nat := 3

/-- Default transition latency (`pm_common.h`, external to the fragment). -/
def PM_DEFAULT_LATENCY : Nat := 1000

/-- Bitwise complement on a 32-bit unsigned value (C `~` on `u32`). -/
def compl32 (m : Nat) : Nat := Nat.xor 0xFFFFFFFF m

/-! Register addresses and masks referenced by the bank instances.  The
numeric values live in external headers (`pmu_global.h`, `crf_apb.h`);
only their identities matter for the properties proved here. -/

def PMU_GLOBAL_RAM_RET_CNTRL : Nat := 0xFFD80026

def PMU_GLOBAL_RAM_RET_CNTRL_OCM_BANK0_MASK : Nat := 0x1

def PMU_GLOBAL_RAM_RET_CNTRL_OCM_BANK1_MASK : Nat := 0x2

def PMU_GLOBAL_RAM_RET_CNTRL_OCM_BANK2_MASK : Nat := 0x4

def PMU_GLOBAL_RAM_RET_CNTRL_OCM_BANK3_MASK : Nat := 0x8

def PMU_GLOBAL_RAM_RET_CNTRL_TCM0A_MASK : Nat := 0x10

def PMU_GLOBAL_RAM_RET_CNTRL_TCM0B_MASK : Nat := 0x20

def PMU_GLOBAL_RAM_RET_CNTRL_TCM1A_MASK : Nat := 0x40

def PMU_GLOBAL_RAM_RET_CNTRL_TCM1B_MASK : Nat := 0x80

def PMU_GLOBAL_RAM_RET_CNTRL_L2_BANK0_MASK : Nat := 0x100

def CRF_APB_RST_FPD_APU : Nat := 0xFD1A0104

def CRF_APB_RST_FPD_APU_APU_L2_RESET_MASK : Nat := 0x100

/-! ### State/capability tables (`pmSramStates`, `pmTcmStates`) -/

/-- `pmSramStates`: capability bit-set per state, indexed OFF, RET, ON. -/
def pmSramStates : List Nat :=
  [0,
   PM_CAP_CONTEXT ||| PM_CAP_POWER,
   PM_CAP_ACCESS ||| PM_CAP_CONTEXT ||| PM_CAP_POWER]

/-- `pmTcmStates`: TCMs in retention do not require power parent to be ON. -/
def pmTcmStates : List Nat :=
  [0,
   PM_CAP_CONTEXT,
   PM_CAP_ACCESS ||| PM_CAP_CONTEXT ||| PM_CAP_POWER]

/-! ### Transition table -/

/-- `PmStateTran`: one directed edge of a bank transition table. -/
structure PmStateTran where
  fromState : Nat
  toState : Nat
  latency : Nat
deriving DecidableEq, Repr

/-- `pmSramTransitions`: from which to which state sram can transit. -/
def pmSramTransitions : List PmStateTran :=
  [{ fromState := PM_SRAM_STATE_ON, toState := PM_SRAM_STATE_RET,
     latency := PM_DEFAULT_LATENCY },
   { fromState := PM_SRAM_STATE_RET, toState := PM_SRAM_STATE_ON,
     latency := PM_DEFAULT_LATENCY },
   { fromState := PM_SRAM_STATE_ON, toState := PM_SRAM_STATE_OFF,
     latency := PM_DEFAULT_LATENCY },
   { fromState := PM_SRAM_STATE_OFF, toState := PM_SRAM_STATE_ON,
     latency := PM_DEFAULT_LATENCY }]

/-! ### FSM records -/

/-- Identifier of the `enterState` callback an FSM record is bound to;
the source binds both FSM records to the single handler `PmSramFsmHandler`. -/
inductive PmEnterStateFn where
  | pmSramFsmHandlerFn
deriving DecidableEq, Repr

/-- `PmSlaveFsm`: state table, transition table and `enterState` binding. -/
structure PmSlaveFsm where
  states : List Nat
  trans : List PmStateTran
  enterState : PmEnterStateFn
deriving DecidableEq, Repr

/-- `slaveSramFsm`. -/
def slaveSramFsm : PmSlaveFsm :=
  { states := pmSramStates, trans := pmSramTransitions,
    enterState := PmEnterStateFn.pmSramFsmHandlerFn }

/-- `slaveTcmFsm`: states are the same as for SRAM, but the encoding in
the retention state is not. -/
def slaveTcmFsm : PmSlaveFsm :=
  { states := pmTcmStates, trans := pmSramTransitions,
    enterState := PmEnterStateFn.pmSramFsmHandlerFn }

/-! ### Bank records -/

/-- A bank instance (`PmSlaveSram` in the source), flattened: the node's
current state, the FSM binding, shareable flag, and the retention-control
register binding.  The external power-action bindings are not data here:
the handler's calls to them are recorded as trace events below. -/
structure PmSlaveSram where
  currState : Nat
  slvFsm : PmSlaveFsm
  shareable : Bool
  retCtrlAddr : Nat
  retCtrlMask : Nat
deriving DecidableEq, Repr

/-! ### Hardware-facing events and environment -/

/-- One hardware-facing event of a handler run: a register
read-modify-write `XPfw_RMW32 addr mask value`, a call of the bank's
external power-up action, a call of its power-down action, or (inside
`PmL2PwrDn`) the PMU-ROM L2 bank power-down call. -/
inductive Action where
  | rmw (addr mask value : Nat)
  | pwrUp
  | pwrDn
  | romPwrDnL2Bank0
deriving DecidableEq, Repr

/-- Return statuses the external power actions would report if called. -/
structure Env where
  pwrUpStatus : Int
  pwrDnStatus : Int
deriving DecidableEq, Repr

/-- Result of a transition request: returned status, the bank record
after the call, and the trace of hardware-facing events, in order. -/
structure HandlerResult where
  status : Int
  slave : PmSlaveSram
  trace : List Action
deriving DecidableEq, Repr

/-! ### The FSM handler (`PmSramFsmHandler`) -/

/-- `PmSramFsmHandler`: performs transition actions.  Mirrors the source's
switch on the current state and nested target-state tests; on
`XST_SUCCESS` the current state is committed via `PmNodeUpdateCurrState`
(modelled as the record update), otherwise the record is unchanged. -/
def PmSramFsmHandler (env : Env) (slave : PmSlaveSram) (nextState : Nat) :
    HandlerResult :=
  let res : Int × List Action :=
    if slave.currState = PM_SRAM_STATE_ON then
      if nextState = PM_SRAM_STATE_RET then
        (env.pwrDnStatus,
         [Action.rmw slave.retCtrlAddr slave.retCtrlMask slave.retCtrlMask,
          Action.pwrDn])
      else if nextState = PM_SRAM_STATE_OFF then
        (env.pwrDnStatus,
         [Action.rmw slave.retCtrlAddr slave.retCtrlMask
            (compl32 slave.retCtrlMask),
          Action.pwrDn])
      else (XST_NO_FEATURE, [])
    else if slave.currState = PM_SRAM_STATE_RET then
      if nextState = PM_SRAM_STATE_ON then
        (env.pwrUpStatus, [Action.pwrUp])
      else if nextState = PM_SRAM_STATE_OFF then
        (env.pwrDnStatus,
         [Action.rmw slave.retCtrlAddr slave.retCtrlMask
            (compl32 slave.retCtrlMask),
          Action.pwrDn])
      else (XST_NO_FEATURE, [])
    else if slave.currState = PM_SRAM_STATE_OFF then
      if nextState = PM_SRAM_STATE_ON then
        (env.pwrUpStatus, [Action.pwrUp])
      else (XST_NO_FEATURE, [])
    else (XST_PM_INTERNAL, [])
  { status := res.1,
    slave := if res.1 = XST_SUCCESS then
               { slave with currState := nextState }
             else slave,
    trace := res.2 }

/-! ### The dispatcher and the request path -/

/-- Edge lookup in a transition table: the first edge matching
(fromState, toState), if any. -/
def findTran (trans : List PmStateTran) (fromS toS : Nat) :
    Option PmStateTran :=
  trans.find? (fun t => t.fromState == fromS && t.toState == toS)

/-- Modelled from the spec: the generic FSM dispatch engine
(`RequestTransition`, realized by `PmSlaveChangeState` in `pm_slave.c`,
which is not part of the analyzed fragment).  It looks up the direct edge
(currentState, targetState) in the bank's transition table; if no edge
exists it fails with the "no such feature" condition, leaving the bank
unchanged and invoking no action — transitions are never chained through
intermediate states; if an edge exists it runs the bank's bound
`enterState` handler. -/
def RequestTransition (env : Env) (slave : PmSlaveSram) (target : Nat) :
    HandlerResult :=
  match findTran slave.slvFsm.trans slave.currState target with
  | none => { status := XST_NO_FEATURE, slave := slave, trace := [] }
  | some _ =>
    match slave.slvFsm.enterState with
    | PmEnterStateFn.pmSramFsmHandlerFn => PmSramFsmHandler env slave target

/-- Modelled from the spec: the request path above the dispatch engine
(the aggregator side, `PmUpdateSlave` in `pm_slave.c`, not part of the
analyzed fragment).  A required state equal to the bank's current state is
a successful no-op and never reaches the dispatch engine; otherwise the
dispatch engine is invoked. -/
def requestState (env : Env) (slave : PmSlaveSram) (target : Nat) :
    HandlerResult :=
  if target = slave.currState then
    { status := XST_SUCCESS, slave := slave, trace := [] }
  else
    RequestTransition env slave target

/-! ### The L2-specific power-down wrapper -/

/-- `PmL2PwrDn`: calls the PMU-ROM function to power down the L2 RAM,
then asserts the L2 reset (unconditionally), and returns the ROM
handler's status.  The ROM handler's return status is the argument. -/
def PmL2PwrDn (romStatus : Int) : Int × List Action :=
  (romStatus,
   [Action.romPwrDnL2Bank0,
    Action.rmw CRF_APB_RST_FPD_APU CRF_APB_RST_FPD_APU_APU_L2_RESET_MASK
      CRF_APB_RST_FPD_APU_APU_L2_RESET_MASK])

/-! ### Bank instances -/

def pmSlaveL2_g : PmSlaveSram :=
  { currState := PM_SRAM_STATE_ON, slvFsm := slaveSramFsm,
    shareable := false,
    retCtrlAddr := PMU_GLOBAL_RAM_RET_CNTRL,
    retCtrlMask := PMU_GLOBAL_RAM_RET_CNTRL_L2_BANK0_MASK }

def pmSlaveOcm0_g : PmSlaveSram :=
  { currState := PM_SRAM_STATE_ON, slvFsm := slaveSramFsm,
    shareable := true,
    retCtrlAddr := PMU_GLOBAL_RAM_RET_CNTRL,
    retCtrlMask := PMU_GLOBAL_RAM_RET_CNTRL_OCM_BANK0_MASK }

def pmSlaveOcm1_g : PmSlaveSram :=
  { currState := PM_SRAM_STATE_ON, slvFsm := slaveSramFsm,
    shareable := true,
    retCtrlAddr := PMU_GLOBAL_RAM_RET_CNTRL,
    retCtrlMask := PMU_GLOBAL_RAM_RET_CNTRL_OCM_BANK1_MASK }

def pmSlaveOcm2_g : PmSlaveSram :=
  { currState := PM_SRAM_STATE_ON, slvFsm := slaveSramFsm,
    shareable := true,
    retCtrlAddr := PMU_GLOBAL_RAM_RET_CNTRL,
    retCtrlMask := PMU_GLOBAL_RAM_RET_CNTRL_OCM_BANK2_MASK }

def pmSlaveOcm3_g : PmSlaveSram :=
  { currState := PM_SRAM_STATE_ON, slvFsm := slaveSramFsm,
    shareable := true,
    retCtrlAddr := PMU_GLOBAL_RAM_RET_CNTRL,
    retCtrlMask := PMU_GLOBAL_RAM_RET_CNTRL_OCM_BANK3_MASK }

def pmSlaveTcm0A_g : PmSlaveSram :=
  { currState := PM_SRAM_STATE_ON, slvFsm := slaveTcmFsm,
    shareable := true,
    retCtrlAddr := PMU_GLOBAL_RAM_RET_CNTRL,
    retCtrlMask := PMU_GLOBAL_RAM_RET_CNTRL_TCM0A_MASK }

def pmSlaveTcm0B_g : PmSlaveSram :=
  { currState := PM_SRAM_STATE_ON, slvFsm := slaveTcmFsm,
    shareable := true,
    retCtrlAddr := PMU_GLOBAL_RAM_RET_CNTRL,
    retCtrlMask := PMU_GLOBAL_RAM_RET_CNTRL_TCM0B_MASK }

def pmSlaveTcm1A_g : PmSlaveSram :=
  { currState := PM_SRAM_STATE_ON, slvFsm := slaveTcmFsm,
    shareable := true,
    retCtrlAddr := PMU_GLOBAL_RAM_RET_CNTRL,
    retCtrlMask := PMU_GLOBAL_RAM_RET_CNTRL_TCM1A_MASK }

def pmSlaveTcm1B_g : PmSlaveSram :=
  { currState := PM_SRAM_STATE_ON, slvFsm := slaveTcmFsm,
    shareable := true,
    retCtrlAddr := PMU_GLOBAL_RAM_RET_CNTRL,
    retCtrlMask := PMU_GLOBAL_RAM_RET_CNTRL_TCM1B_MASK }

/-- The catalog of bank instances defined in the source file. -/
def pmSramBanks : List PmSlaveSram :=
  [pmSlaveL2_g, pmSlaveOcm0_g, pmSlaveOcm1_g, pmSlaveOcm2_g, pmSlaveOcm3_g,
   pmSlaveTcm0A_g, pmSlaveTcm0B_g, pmSlaveTcm1A_g, pmSlaveTcm1B_g]

/-- Bit-set inclusion: every bit of `a` is a bit of `b`. -/
def subsetBits (a b : Nat) : Prop := a &&& b = a

instance (a b : Nat) : Decidable (subsetBits a b) := by
  unfold subsetBits; infer_instance

/-- Capability bit-set of state `s` in state table `tbl`. -/
def stateCaps (tbl : List Nat) (s : Nat) : Nat := tbl.getD s 0

/-! ### Theorems -/

/-- C1: For every bank and every pair (currentState, targetState) with no
direct edge in the bank's transition table — in particular RETENTION→OFF,
for which the shared table has no edge — the transition request fails with
the "no such feature" condition, the bank's recorded current state is
unchanged, and no hardware-facing action is invoked: the engine never
chains multi-hop transitions. -/
theorem request_noEdge_fails_noFeature (env : Env) (s : PmSlaveSram)
    (t : Nat) (h : findTran s.slvFsm.trans s.currState t = none) :
    findTran pmSramTransitions PM_SRAM_STATE_RET PM_SRAM_STATE_OFF
      = none ∧
    RequestTransition env s t =
      { status := XST_NO_FEATURE, slave := s, trace := [] } := by
  refine ⟨by decide, ?_⟩
  unfold RequestTransition
  rw [h]

/-- Witness for C1: the L2 bank in RETENTION, asked for OFF. -/
theorem request_noEdge_fails_noFeature_witness :
    RequestTransition { pwrUpStatus := 0, pwrDnStatus := 0 }
        { pmSlaveL2_g with currState := PM_SRAM_STATE_RET }
        PM_SRAM_STATE_OFF =
      { status := XST_NO_FEATURE,
        slave := { pmSlaveL2_g with currState := PM_SRAM_STATE_RET },
        trace := [] } :=
  (request_noEdge_fails_noFeature { pwrUpStatus := 0, pwrDnStatus := 0 }
    { pmSlaveL2_g with currState := PM_SRAM_STATE_RET }
    PM_SRAM_STATE_OFF (by decide)).2

/-- C2: Requesting a transition to the bank's current state is a no-op
that reports success and invokes neither power action nor any
retention-control write. -/
theorem request_currentState_noop (env : Env) (s : PmSlaveSram) :
    requestState env s s.currState =
      { status := XST_SUCCESS, slave := s, trace := [] } := by
  unfold requestState
  simp

/-- C3: The recorded current state is committed to the requested target
exactly when the handler reports success; on any failure the bank record
is unchanged — at the handler level and at the dispatcher level alike, no
transition is partially committed. -/
theorem commit_iff_success (env : Env) (s : PmSlaveSram) (next : Nat) :
    (PmSramFsmHandler env s next).slave =
      (if (PmSramFsmHandler env s next).status = XST_SUCCESS then
         { s with currState := next }
       else s) ∧
    (RequestTransition env s next).slave =
      (if (RequestTransition env s next).status = XST_SUCCESS then
         { s with currState := next }
       else s) := by
  constructor
  · rfl
  · unfold RequestTransition
    cases h : findTran s.slvFsm.trans s.currState next with
    | none =>
      simp only
      rw [if_neg (by unfold XST_NO_FEATURE XST_SUCCESS; decide)]
    | some tr =>
      cases he : s.slvFsm.enterState with
      | pmSramFsmHandlerFn => rfl

/-- C4: On every downward edge the handler first performs the
retention-control read-modify-write for the target state (writing the mask
for a RETENTION target, its complement for an OFF target) and then calls
the external power-down action; on every upward edge it calls only the
external power-up action and performs no retention-control write. -/
theorem downward_rmw_then_pwrDn_upward_pwrUp_only
    (env : Env) (s : PmSlaveSram) :
    (PmSramFsmHandler env { s with currState := PM_SRAM_STATE_ON }
        PM_SRAM_STATE_RET).trace =
      [Action.rmw s.retCtrlAddr s.retCtrlMask s.retCtrlMask,
       Action.pwrDn] ∧
    (PmSramFsmHandler env { s with currState := PM_SRAM_STATE_ON }
        PM_SRAM_STATE_OFF).trace =
      [Action.rmw s.retCtrlAddr s.retCtrlMask (compl32 s.retCtrlMask),
       Action.pwrDn] ∧
    (PmSramFsmHandler env { s with currState := PM_SRAM_STATE_RET }
        PM_SRAM_STATE_OFF).trace =
      [Action.rmw s.retCtrlAddr s.retCtrlMask (compl32 s.retCtrlMask),
       Action.pwrDn] ∧
    (PmSramFsmHandler env { s with currState := PM_SRAM_STATE_OFF }
        PM_SRAM_STATE_ON).trace = [Action.pwrUp] ∧
    (PmSramFsmHandler env { s with currState := PM_SRAM_STATE_RET }
        PM_SRAM_STATE_ON).trace = [Action.pwrUp] :=
  ⟨rfl, rfl, rfl, rfl, rfl⟩

/-- C5: A bank in OFF asked for RETENTION fails with the "no such
feature" condition, invokes no action, and stays in OFF — both at the
handler and, for the shared transition table, at the dispatcher. -/
theorem off_to_ret_fails (env : Env) (s : PmSlaveSram)
    (h : s.slvFsm.trans = pmSramTransitions) :
    PmSramFsmHandler env { s with currState := PM_SRAM_STATE_OFF }
        PM_SRAM_STATE_RET =
      { status := XST_NO_FEATURE,
        slave := { s with currState := PM_SRAM_STATE_OFF },
        trace := [] } ∧
    RequestTransition env { s with currState := PM_SRAM_STATE_OFF }
        PM_SRAM_STATE_RET =
      { status := XST_NO_FEATURE,
        slave := { s with currState := PM_SRAM_STATE_OFF },
        trace := [] } := by
  constructor
  · rfl
  · unfold RequestTransition
    simp only [h]
    rfl

/-- Witness for C5: the OCM bank 0 instance, in OFF, asked for RET. -/
theorem off_to_ret_fails_witness :
    RequestTransition { pwrUpStatus := 0, pwrDnStatus := 0 }
        { pmSlaveOcm0_g with currState := PM_SRAM_STATE_OFF }
        PM_SRAM_STATE_RET =
      { status := XST_NO_FEATURE,
        slave := { pmSlaveOcm0_g with currState := PM_SRAM_STATE_OFF },
        trace := [] } :=
  (off_to_ret_fails { pwrUpStatus := 0, pwrDnStatus := 0 }
    pmSlaveOcm0_g (by decide)).2

/-- C6: In both the SRAM and the TCM state tables the capability sets are
non-decreasing along OFF, RETENTION, ON, and along every edge of the
shared transition table capabilities only grow upward and only shrink
downward. -/
theorem caps_monotone :
    (subsetBits (stateCaps pmSramStates PM_SRAM_STATE_OFF)
       (stateCaps pmSramStates PM_SRAM_STATE_RET) ∧
     subsetBits (stateCaps pmSramStates PM_SRAM_STATE_RET)
       (stateCaps pmSramStates PM_SRAM_STATE_ON)) ∧
    (subsetBits (stateCaps pmTcmStates PM_SRAM_STATE_OFF)
       (stateCaps pmTcmStates PM_SRAM_STATE_RET) ∧
     subsetBits (stateCaps pmTcmStates PM_SRAM_STATE_RET)
       (stateCaps pmTcmStates PM_SRAM_STATE_ON)) ∧
    (∀ t ∈ pmSramTransitions,
      (t.fromState < t.toState →
        subsetBits (stateCaps pmSramStates t.fromState)
          (stateCaps pmSramStates t.toState) ∧
        subsetBits (stateCaps pmTcmStates t.fromState)
          (stateCaps pmTcmStates t.toState)) ∧
      (t.toState < t.fromState →
        subsetBits (stateCaps pmSramStates t.toState)
          (stateCaps pmSramStates t.fromState) ∧
        subsetBits (stateCaps pmTcmStates t.toState)
          (stateCaps pmTcmStates t.fromState))) := by
  decide

/-- Witness for C6: instantiated on the upward RETENTION→ON edge. -/
theorem caps_monotone_witness :
    subsetBits (stateCaps pmSramStates PM_SRAM_STATE_RET)
      (stateCaps pmSramStates PM_SRAM_STATE_ON) ∧
    subsetBits (stateCaps pmTcmStates PM_SRAM_STATE_RET)
      (stateCaps pmTcmStates PM_SRAM_STATE_ON) :=
  (caps_monotone.2.2
    { fromState := PM_SRAM_STATE_RET, toState := PM_SRAM_STATE_ON,
      latency := PM_DEFAULT_LATENCY } (by decide)).1 (by decide)

/-- C7: The TCM table encodes RETENTION without the POWERED capability;
the SRAM table's RETENTION has both CONTEXT-RETAINED and POWERED; the OFF
and ON entries of the two tables coincide; and both FSM records share the
transition table and the `enterState` handler binding. -/
theorem tcm_sram_table_relation :
    stateCaps pmTcmStates PM_SRAM_STATE_RET &&& PM_CAP_POWER = 0 ∧
    stateCaps pmTcmStates PM_SRAM_STATE_RET &&& PM_CAP_CONTEXT
      = PM_CAP_CONTEXT ∧
    stateCaps pmSramStates PM_SRAM_STATE_RET &&& PM_CAP_POWER
      = PM_CAP_POWER ∧
    stateCaps pmSramStates PM_SRAM_STATE_RET &&& PM_CAP_CONTEXT
      = PM_CAP_CONTEXT ∧
    stateCaps pmSramStates PM_SRAM_STATE_OFF
      = stateCaps pmTcmStates PM_SRAM_STATE_OFF ∧
    stateCaps pmSramStates PM_SRAM_STATE_ON
      = stateCaps pmTcmStates PM_SRAM_STATE_ON ∧
    slaveSramFsm.trans = slaveTcmFsm.trans ∧
    slaveSramFsm.trans = pmSramTransitions ∧
    slaveSramFsm.enterState = slaveTcmFsm.enterState := by
  decide

/-- C8: With a recorded current state outside {OFF, RETENTION, ON}, the
handler returns the internal-error status (distinct from success and from
the "no such feature" status), performs no action, and leaves the record
unchanged, whatever the target. -/
theorem unknown_state_internal_error (env : Env) (s : PmSlaveSram)
    (next : Nat)
    (h0 : s.currState ≠ PM_SRAM_STATE_OFF)
    (h1 : s.currState ≠ PM_SRAM_STATE_RET)
    (h2 : s.currState ≠ PM_SRAM_STATE_ON) :
    PmSramFsmHandler env s next =
      { status := XST_PM_INTERNAL, slave := s, trace := [] } ∧
    XST_PM_INTERNAL ≠ XST_SUCCESS ∧
    XST_PM_INTERNAL ≠ XST_NO_FEATURE := by
  refine ⟨?_, by decide, by decide⟩
  unfold PmSramFsmHandler
  simp only [if_neg h2, if_neg h1, if_neg h0]
  rfl

/-- Witness for C8: a bank whose recorded state is the out-of-range 3. -/
theorem unknown_state_internal_error_witness :
    PmSramFsmHandler { pwrUpStatus := 0, pwrDnStatus := 0 }
        { pmSlaveL2_g with currState := 3 } PM_SRAM_STATE_ON =
      { status := XST_PM_INTERNAL,
        slave := { pmSlaveL2_g with currState := 3 },
        trace := [] } :=
  (unknown_state_internal_error { pwrUpStatus := 0, pwrDnStatus := 0 }
    { pmSlaveL2_g with currState := 3 } PM_SRAM_STATE_ON
    (by decide) (by decide) (by decide)).1

/-- C9: When the power-down action fails on a downward transition, the
retention-control read-modify-write has already happened and stays in the
trace — it is not rolled back — while the recorded current state is
unchanged and the failure status is returned. -/
theorem pwrDn_failure_keeps_rmw (env : Env) (s : PmSlaveSram)
    (h : env.pwrDnStatus ≠ XST_SUCCESS) :
    PmSramFsmHandler env { s with currState := PM_SRAM_STATE_ON }
        PM_SRAM_STATE_RET =
      { status := env.pwrDnStatus,
        slave := { s with currState := PM_SRAM_STATE_ON },
        trace := [Action.rmw s.retCtrlAddr s.retCtrlMask s.retCtrlMask,
                  Action.pwrDn] } ∧
    PmSramFsmHandler env { s with currState := PM_SRAM_STATE_ON }
        PM_SRAM_STATE_OFF =
      { status := env.pwrDnStatus,
        slave := { s with currState := PM_SRAM_STATE_ON },
        trace := [Action.rmw s.retCtrlAddr s.retCtrlMask
                    (compl32 s.retCtrlMask),
                  Action.pwrDn] } ∧
    PmSramFsmHandler env { s with currState := PM_SRAM_STATE_RET }
        PM_SRAM_STATE_OFF =
      { status := env.pwrDnStatus,
        slave := { s with currState := PM_SRAM_STATE_RET },
        trace := [Action.rmw s.retCtrlAddr s.retCtrlMask
                    (compl32 s.retCtrlMask),
                  Action.pwrDn] } := by
  refine ⟨?_, ?_, ?_⟩ <;>
    · unfold PmSramFsmHandler
      simp [h, PM_SRAM_STATE_ON, PM_SRAM_STATE_RET, PM_SRAM_STATE_OFF]

/-- Witness for C9: OCM bank 1 in ON, power-down reporting failure 1. -/
theorem pwrDn_failure_keeps_rmw_witness :
    PmSramFsmHandler { pwrUpStatus := 0, pwrDnStatus := 1 }
        { pmSlaveOcm1_g with currState := PM_SRAM_STATE_ON }
        PM_SRAM_STATE_RET =
      { status := 1,
        slave := { pmSlaveOcm1_g with currState := PM_SRAM_STATE_ON },
        trace := [Action.rmw pmSlaveOcm1_g.retCtrlAddr
                    pmSlaveOcm1_g.retCtrlMask pmSlaveOcm1_g.retCtrlMask,
                  Action.pwrDn] } :=
  (pwrDn_failure_keeps_rmw { pwrUpStatus := 0, pwrDnStatus := 1 }
    pmSlaveOcm1_g (by decide)).1

/-- C10: `PmL2PwrDn` returns the ROM handler's status unmodified and
always asserts the APU L2 reset after the ROM power-down call — also when
that call reports failure. -/
theorem l2_pwrDn_reset_unconditional (romStatus : Int) :
    (PmL2PwrDn romStatus).1 = romStatus ∧
    (PmL2PwrDn romStatus).2 =
      [Action.romPwrDnL2Bank0,
       Action.rmw CRF_APB_RST_FPD_APU
         CRF_APB_RST_FPD_APU_APU_L2_RESET_MASK
         CRF_APB_RST_FPD_APU_APU_L2_RESET_MASK] :=
  ⟨rfl, rfl⟩

end PmSram
